import Mathlib

/-!
Shallow embedding of the passwordless-authentication subsystem of the
goayu backend (FastAPI + MongoDB), covering:

* `app/services/auth_service.py` — `generate_token`, `verify_token`,
  `send_otp`, `verify_otp`, `cleanup_expired_otps`;
* `app/services/user_service.py` — `create_user`, `update_last_login`,
  `create_session`, `invalidate_session`, `cleanup_expired_sessions`,
  `log_activity`;
* `app/services/email_service.py` — `send_otp_email`;
* `app/api/v1/auth.py` — the `logout` route;
* `app/api/v1/users.py` — the `DELETE /sessions/{session_id}` route.

Modelling conventions:

* Time instants (`datetime.utcnow()`) are seconds-since-epoch naturals;
  `timedelta(minutes=10)` is 600, `timedelta(days=30)` is 2592000.
* Each MongoDB collection is a `List` of records in insertion order.
  `find_one` is `List.find?`; `insert_one` appends; `delete_many p` is
  `filter (¬ p)`; `update_one`/`delete_one` act on the first match
  (`updateFirst` / `removeFirst` below).  The auto-generated `_id` of an
  OTP document is the `rid : Nat` field; callers of `insert_one` supply it.
* Randomness and generated identifiers (the OTP code from
  `generate_otp`, uuid4 user ids) are passed as explicit parameters.
* JWT signing (`jwt.encode(payload, secret, "HS256")`) is modelled
  symbolically: a token is a record of its claims plus the key it was
  signed with; `jwt.decode` succeeds exactly when the key matches and the
  `exp` claim has not passed.
* Python floats (`height`, `weight`) are modelled as `ℚ`; no arithmetic
  is performed on them.
-/

/-- `update_one`: apply `f` to the first element satisfying `p`, leave the
rest unchanged (MongoDB `update_one` with a `$set`/`$inc` document). -/
def updateFirst (p : α → Bool) (f : α → α) : List α → List α
  | [] => []
  | x :: xs => if p x then f x :: xs else x :: updateFirst p f xs

/-- `delete_one`: remove the first element satisfying `p`
(MongoDB `delete_one`). -/
def removeFirst (p : α → Bool) : List α → List α
  | [] => []
  | x :: xs => if p x then xs else x :: removeFirst p xs

/-- `app/models/auth.py` `OTPRecord`, plus the MongoDB `_id` (`rid`),
which `verify_otp` uses to address the found document. -/
structure OTPRecord where
  rid : Nat
  email : String
  otp : String
  created_at : Nat
  expires_at : Nat
  attempts : Nat
  verified : Bool
  deriving DecidableEq, Repr

/-- `app/models/user.py` `User` (preference/reference fields that no
authentication code path reads are omitted). -/
structure User where
  user_id : String
  email : String
  first_name : Option String := none
  last_name : Option String := none
  blood_group : Option String := none
  height : Option ℚ := none
  weight : Option ℚ := none
  created_at : Nat
  updated_at : Nat
  last_login : Option Nat := none
  is_active : Bool := true
  deriving DecidableEq, Repr

/-- `app/models/user.py` `Session`. -/
structure Session where
  session_id : String
  user_id : String
  token : String
  created_at : Nat
  expires_at : Nat
  last_activity : Nat
  is_active : Bool := true
  deriving DecidableEq, Repr

/-- `app/models/user.py` `UserActivity` (the uuid `activity_id` and the
optional origin metadata play no role in any claim and are omitted). -/
structure UserActivity where
  user_id : String
  activity_type : String
  timestamp : Nat
  deriving DecidableEq, Repr

/-- The shared persistent store: the four MongoDB collections the
authentication subsystem touches. -/
structure DB where
  otp_codes : List OTPRecord := []
  users : List User := []
  sessions : List Session := []
  activities : List UserActivity := []
  deriving DecidableEq, Repr

/-- The JWT payload built by `generate_token` together with its signature,
modelled as the signing key (`settings.BACKEND_URL` in the source). -/
structure Token where
  user_id : String
  email : String
  iat : Nat
  exp : Nat
  sig : String
  deriving DecidableEq, Repr

/-- The dict returned by `AuthService.verify_otp` on success. -/
structure LoginResponse where
  user_id : String
  email : String
  first_name : Option String
  last_name : Option String
  blood_group : Option String
  height : Option ℚ
  weight : Option ℚ
  token : Token
  created_at : Nat
  deriving DecidableEq, Repr

/-- `UserService.log_activity`: builds a `UserActivity` and inserts it into
`user_activities`. -/
def log_activity (db : DB) (user_id activity_type : String) (now : Nat) : DB :=
  let entry : UserActivity :=
    { user_id := user_id, activity_type := activity_type, timestamp := now }
  { db with activities := db.activities ++ [entry] }

/-- `UserService.create_user`: returns the existing user with that email if
one exists, otherwise inserts a fresh `User` (uuid supplied as
`newUserId`) and logs a `user_created` activity. -/
def create_user (db : DB) (now : Nat) (newUserId : String) (email : String) :
    User × DB :=
  match db.users.find? (fun u => u.email == email) with
  | some u => (u, db)
  | none =>
    let u : User :=
      { user_id := newUserId, email := email, created_at := now, updated_at := now }
    (u, log_activity { db with users := db.users ++ [u] } u.user_id "user_created" now)

/-- `UserService.update_last_login`: `update_one({"user_id": user_id},
{"$set": {"last_login": now}})`. -/
def update_last_login (db : DB) (user_id : String) (now : Nat) : DB :=
  let users' := updateFirst (fun u => u.user_id == user_id)
    (fun u => { u with last_login := some now }) db.users
  { db with users := users' }

/-- `AuthService.generate_token`: JWT payload with `exp = iat + 30 days`,
signed (HS256) with the server secret. -/
def generate_token (secret : String) (now : Nat) (user_id email : String) : Token :=
  { user_id := user_id, email := email, iat := now, exp := now + 30 * 86400, sig := secret }

/-- `AuthService.verify_token`: `jwt.decode` returns the payload when the
signature checks out and the `exp` claim is still in the future; on
`ExpiredSignatureError`/`InvalidTokenError` the method returns `None`. -/
def verify_token (secret : String) (now : Nat) (t : Token) : Option Token :=
  if t.sig == secret && now < t.exp then some t else none

/-- `EmailService.send_otp_email`: every exception from the delivery
provider is caught; the method reports the delivery outcome as a `Bool`
and never raises.  The outcome of the external provider is the
`delivered` parameter. -/
def send_otp_email (delivered : Bool) : Bool := delivered

/-- `AuthService.send_otp`: builds a fresh `OTPRecord` (code `otp` from
`generate_otp`, `expires_at = now + 10 minutes`, `attempts = 0`,
`verified = false`), `delete_many`s every OTP document for the email,
inserts the new one, fires the notifier (result ignored), logs an
`otp_requested` activity when a user with that email exists, and returns
`True`. -/
def send_otp (db : DB) (now : Nat) (otp : String) (newRid : Nat)
    (delivered : Bool) (email : String) : Bool × DB :=
  let otp_record : OTPRecord :=
    { rid := newRid, email := email, otp := otp, created_at := now,
      expires_at := now + 600, attempts := 0, verified := false }
  let superseded := db.otp_codes.filter (fun r => !(r.email == email))
  let db1 : DB := { db with otp_codes := superseded ++ [otp_record] }
  let _sent := send_otp_email delivered
  let db2 : DB :=
    match db1.users.find? (fun u => u.email == email) with
    | some u => log_activity db1 u.user_id "otp_requested" now
    | none => db1
  (true, db2)

/-- `AuthService.verify_otp`: finds the first unverified OTP document for
the email; fails (returns `none`) when there is none, when it is expired
(deleting it), when `attempts ≥ 5` (deleting it), or when the code
mismatches (incrementing `attempts`); on a match it marks the document
verified, gets or creates the user (fresh uuid `newUserId`), updates
`last_login`, mints a token, logs `login_success`, deletes the OTP
document and returns the user snapshot with the token. -/
def verify_otp (db : DB) (secret : String) (now : Nat) (newUserId : String)
    (email otp : String) : Option LoginResponse × DB :=
  match db.otp_codes.find? (fun r => r.email == email && !r.verified) with
  | none => (none, db)
  | some otp_record =>
    if now > otp_record.expires_at then
      let pruned := removeFirst (fun r => r.rid == otp_record.rid) db.otp_codes
      (none, { db with otp_codes := pruned })
    else if otp_record.attempts ≥ 5 then
      let pruned := removeFirst (fun r => r.rid == otp_record.rid) db.otp_codes
      (none, { db with otp_codes := pruned })
    else if otp_record.otp ≠ otp then
      let bumped := updateFirst (fun r => r.rid == otp_record.rid)
        (fun r => { r with attempts := r.attempts + 1 }) db.otp_codes
      (none, { db with otp_codes := bumped })
    else
      let marked := updateFirst (fun r => r.rid == otp_record.rid)
        (fun r => { r with verified := true }) db.otp_codes
      let db1 : DB := { db with otp_codes := marked }
      let userDb := create_user db1 now newUserId email
      let user := userDb.1
      let db2 := userDb.2
      let db3 := update_last_login db2 user.user_id now
      let token := generate_token secret now user.user_id email
      let db4 := log_activity db3 user.user_id "login_success" now
      let remaining := removeFirst (fun r => r.rid == otp_record.rid) db4.otp_codes
      let db5 : DB := { db4 with otp_codes := remaining }
      (some { user_id := user.user_id, email := user.email,
              first_name := user.first_name, last_name := user.last_name,
              blood_group := user.blood_group, height := user.height,
              weight := user.weight, token := token,
              created_at := user.created_at }, db5)

/-- `AuthService.cleanup_expired_otps`:
`delete_many({"expires_at": {"$lt": now}})`, returning `deleted_count`. -/
def cleanup_expired_otps (db : DB) (now : Nat) : Nat × DB :=
  ((db.otp_codes.filter (fun r => r.expires_at < now)).length,
   { db with otp_codes := db.otp_codes.filter (fun r => !(r.expires_at < now)) })

/-- `UserService.cleanup_expired_sessions`:
`delete_many({"expires_at": {"$lt": now}})`, returning `deleted_count`. -/
def cleanup_expired_sessions (db : DB) (now : Nat) : Nat × DB :=
  ((db.sessions.filter (fun s => s.expires_at < now)).length,
   { db with sessions := db.sessions.filter (fun s => !(s.expires_at < now)) })

/-- `UserService.create_session`: inserts a fresh `Session`
(`expires_at = now + expires_in_days`), updates `last_login` and logs a
`login` activity.  (`verify_otp` never calls this; only the explicit
`POST /users/{user_id}/sessions` route does.) -/
def create_session (db : DB) (now : Nat) (newSessionId user_id token : String)
    (expires_in_days : Nat := 30) : Session × DB :=
  let session : Session :=
    { session_id := newSessionId, user_id := user_id, token := token,
      created_at := now, expires_at := now + expires_in_days * 86400,
      last_activity := now }
  let db1 : DB := { db with sessions := db.sessions ++ [session] }
  let db2 := update_last_login db1 user_id now
  (session, log_activity db2 user_id "login" now)

/-- `UserService.invalidate_session`: `update_one({"session_id": sid},
{"$set": {"is_active": False}})` and returns `modified_count > 0` —
true exactly when a matching document existed *and* its `is_active` flag
actually changed. -/
def invalidate_session (db : DB) (session_id : String) : Bool × DB :=
  let modified :=
    match db.sessions.find? (fun s => s.session_id == session_id) with
    | some s => s.is_active
    | none => false
  let sessions' := updateFirst (fun s => s.session_id == session_id)
    (fun s => { s with is_active := false }) db.sessions
  (modified, { db with sessions := sessions' })

/-- Outcome of a FastAPI route: a 200 body or a raised `HTTPException`. -/
inductive ApiResult where
  | ok (message : String)
  | error (status : Nat) (detail : String)
  deriving DecidableEq, Repr

/-- `DELETE /sessions/{session_id}` (`app/api/v1/users.py`): raises
404 "Session not found" when the service reports nothing modified. -/
def invalidate_session_route (db : DB) (session_id : String) : ApiResult × DB :=
  let r := invalidate_session db session_id
  if r.1 then (ApiResult.ok "Session invalidated successfully", r.2)
  else (ApiResult.error 404 "Session not found", r.2)

/-- The `Authorization` header as the `logout` route inspects it:
absent, present but not of the form `Bearer <token>`, or a bearer
token. -/
inductive AuthHeader where
  | missing
  | notBearer (raw : String)
  | bearer (t : Token)
  deriving DecidableEq, Repr

/-- `POST /auth/logout` (`app/api/v1/auth.py`): when the header carries a
token that verifies, logs a `logout` activity; in every case returns the
success message. -/
def logout (db : DB) (secret : String) (now : Nat) (h : AuthHeader) :
    String × DB :=
  match h with
  | AuthHeader.bearer t =>
    match verify_token secret now t with
    | some payload => ("Logged out successfully", log_activity db payload.user_id "logout" now)
    | none => ("Logged out successfully", db)
  | _ => ("Logged out successfully", db)

/-- A concrete pending challenge used by concrete checks: issued at 0,
expiring at 600, stored code "123456", with the given attempt counter. -/
def sampleOTP (attempts : Nat) : OTPRecord :=
  { rid := 1, email := "a@x.com", otp := "123456", created_at := 0,
    expires_at := 600, attempts := attempts, verified := false }

/-- A store holding exactly the one sample challenge. -/
def sampleDB (attempts : Nat) : DB := { otp_codes := [sampleOTP attempts] }

/-- A concrete active session used by concrete checks. -/
def sampleSession : Session :=
  { session_id := "s1", user_id := "u1", token := "tok", created_at := 0,
    expires_at := 100, last_activity := 0 }

/-- A store holding exactly the one sample session. -/
def sessionDB : DB := { sessions := [sampleSession] }

/-- A store with one expired and one live session, and one expired and one
live challenge, relative to instant 200. -/
def sweepDB : DB :=
  { otp_codes :=
      [{ rid := 1, email := "a@x.com", otp := "111111", created_at := 0,
         expires_at := 50, attempts := 0, verified := false },
       { rid := 2, email := "b@x.com", otp := "222222", created_at := 0,
         expires_at := 500, attempts := 0, verified := false }],
    sessions :=
      [sampleSession,
       { sampleSession with session_id := "s2", expires_at := 600 }] }

/-! ### List helper lemmas -/

theorem updateFirst_of_forall_neg (p : α → Bool) (f : α → α) :
    ∀ l : List α, (∀ x ∈ l, ¬ p x) → updateFirst p f l = l := by
  intro l h
  induction l with
  | nil => rfl
  | cons a l ih =>
    have ha : ¬ p a := h a (List.mem_cons_self a l)
    simp only [updateFirst, Bool.not_eq_true] at ha ⊢
    rw [if_neg (by simp [ha]), ih (fun x hx => h x (List.mem_cons_of_mem a hx))]

theorem find?_updateFirst (p : α → Bool) (f : α → α)
    (hf : ∀ a, p (f a) = p a) :
    ∀ l : List α, (updateFirst p f l).find? p = (l.find? p).map f := by
  intro l
  induction l with
  | nil => rfl
  | cons a l ih =>
    by_cases h : p a
    · simp only [updateFirst, if_pos h]
      rw [List.find?_cons_of_pos _ (by rw [hf]; exact h),
        List.find?_cons_of_pos _ h]
      rfl
    · simp only [updateFirst, if_neg h]
      rw [List.find?_cons_of_neg _ h, ih, List.find?_cons_of_neg _ h]

theorem updateFirst_eq_of_fix (p : α → Bool) (f : α → α) :
    ∀ (l : List α) (a : α), l.find? p = some a → f a = a → updateFirst p f l = l := by
  intro l
  induction l with
  | nil => intro a h; simp at h
  | cons b l ih =>
    intro a h hfix
    by_cases hb : p b
    · rw [List.find?_cons_of_pos _ hb] at h
      cases h
      simp only [updateFirst, if_pos hb, hfix]
    · rw [List.find?_cons_of_neg _ hb] at h
      simp only [updateFirst, if_neg hb]
      rw [ih a h hfix]

theorem countP_updateFirst (p q : α → Bool) (f : α → α)
    (hf : ∀ a, q (f a) = q a) :
    ∀ l : List α, (updateFirst p f l).countP q = l.countP q := by
  intro l
  induction l with
  | nil => rfl
  | cons a l ih =>
    by_cases h : p a
    · simp only [updateFirst, if_pos h, List.countP_cons, hf]
    · simp only [updateFirst, if_neg h, List.countP_cons, ih]

theorem countP_removeFirst_of_mem (p : α → Bool) :
    ∀ l : List α, (∃ x ∈ l, p x) →
      (removeFirst p l).countP p = l.countP p - 1 := by
  intro l
  induction l with
  | nil => rintro ⟨x, hx, -⟩; simp at hx
  | cons a l ih =>
    rintro ⟨x, hx, hpx⟩
    by_cases h : p a
    · simp only [removeFirst, if_pos h, List.countP_cons, if_pos h]
      omega
    · simp only [removeFirst, if_neg h, List.countP_cons, if_neg h]
      rcases List.mem_cons.mp hx with rfl | hx'
      · exact absurd hpx h
      · rw [ih ⟨x, hx', hpx⟩]
        have : 1 ≤ l.countP p := by
          have := List.countP_pos_iff (p := p) (l := l) |>.mpr ⟨x, hx', hpx⟩
          omega
        omega

theorem exists_updated_mem_updateFirst (p : α → Bool) (f : α → α) :
    ∀ l : List α, (∃ x ∈ l, p x) →
      ∃ x, p x ∧ f x ∈ updateFirst p f l := by
  intro l
  induction l with
  | nil => rintro ⟨x, hx, -⟩; simp at hx
  | cons a l ih =>
    rintro ⟨x, hx, hpx⟩
    by_cases h : p a
    · exact ⟨a, h, by simp [updateFirst, if_pos h]⟩
    · rcases List.mem_cons.mp hx with rfl | hx'
      · exact absurd hpx h
      · obtain ⟨y, hpy, hy⟩ := ih ⟨x, hx', hpx⟩
        exact ⟨y, hpy, by simp [updateFirst, if_neg h, hy]⟩

theorem mem_or_updated_mem_updateFirst (p : α → Bool) (f : α → α) :
    ∀ (l : List α) (x : α), x ∈ l →
      x ∈ updateFirst p f l ∨ f x ∈ updateFirst p f l := by
  intro l
  induction l with
  | nil => intro x hx; simp at hx
  | cons a l ih =>
    intro x hx
    by_cases h : p a
    · simp only [updateFirst, if_pos h]
      rcases List.mem_cons.mp hx with rfl | hx'
      · exact Or.inr (List.mem_cons_self _ _)
      · exact Or.inl (List.mem_cons_of_mem _ hx')
    · simp only [updateFirst, if_neg h]
      rcases List.mem_cons.mp hx with rfl | hx'
      · exact Or.inl (List.mem_cons_self _ _)
      · rcases ih x hx' with h' | h'
        · exact Or.inl (List.mem_cons_of_mem _ h')
        · exact Or.inr (List.mem_cons_of_mem _ h')

theorem find?_append_of_forall_neg (p : α → Bool) (l₁ l₂ : List α)
    (h : ∀ x ∈ l₁, ¬ p x) : (l₁ ++ l₂).find? p = l₂.find? p := by
  rw [List.find?_append, List.find?_eq_none.mpr h]
  rfl

/-! ### Shared facts about the operations -/

/-- The OTP collection after `send_otp`: every prior document for the email
is gone and the fresh record sits at the end, whatever the delivery
outcome and whether an `otp_requested` activity was logged. -/
theorem send_otp_otp_codes (db : DB) (now : Nat) (otp : String) (newRid : Nat)
    (delivered : Bool) (email : String) :
    (send_otp db now otp newRid delivered email).2.otp_codes
      = db.otp_codes.filter (fun r => !(r.email == email))
          ++ [{ rid := newRid, email := email, otp := otp, created_at := now,
                expires_at := now + 600, attempts := 0, verified := false }] := by
  unfold send_otp
  cases h : db.users.find? (fun u => u.email == email) <;> simp [h, log_activity]

/-! ### C1 -/

/-- C1, counterexample: a fully successful `verify_otp` run on a store with
no sessions leaves the session collection empty — no Session is created,
contradicting the claim that one is. -/
theorem verify_success_creates_no_session :
    (verify_otp (sampleDB 0) "sec" 10 "u1" "a@x.com" "123456").1.isSome = true ∧
    (verify_otp (sampleDB 0) "sec" 10 "u1" "a@x.com" "123456").2.sessions = [] :=
  ⟨rfl, rfl⟩

/-- C1, amended: when a pending, unexpired challenge with attempts below the
maximum matches the submitted code, `verify_otp` creates an identity for
the contact if none exists, updates its last-authenticated timestamp,
mints a token binding identity id and contact, appends a
login-success activity as the last record, deletes the challenge, and
returns the identity snapshot with the token — but it creates no Session:
the session collection is returned unchanged. -/
theorem verify_success_effects (db : DB) (secret : String) (now : Nat)
    (newUserId email otp : String) (otp_record : OTPRecord)
    (hfind : db.otp_codes.find? (fun r => r.email == email && !r.verified) = some otp_record)
    (hexp : now ≤ otp_record.expires_at)
    (hatt : otp_record.attempts < 5)
    (hotp : otp_record.otp = otp)
    (hcount : db.otp_codes.countP (fun r => r.rid == otp_record.rid) ≤ 1) :
    ∃ resp,
      (verify_otp db secret now newUserId email otp).1 = some resp ∧
      resp.token = generate_token secret now resp.user_id email ∧
      resp.email = email ∧
      (db.users.find? (fun u => u.email == email) = none →
        resp.user_id = newUserId ∧
        ∃ u ∈ (verify_otp db secret now newUserId email otp).2.users,
          u.user_id = newUserId ∧ u.email = email) ∧
      (∀ u, db.users.find? (fun u => u.email == email) = some u →
        resp.user_id = u.user_id) ∧
      (∃ u ∈ (verify_otp db secret now newUserId email otp).2.users,
        u.user_id = resp.user_id ∧ u.last_login = some now) ∧
      (verify_otp db secret now newUserId email otp).2.sessions = db.sessions ∧
      (verify_otp db secret now newUserId email otp).2.activities.getLast?
          = some { user_id := resp.user_id, activity_type := "login_success", timestamp := now } ∧
      (verify_otp db secret now newUserId email otp).2.otp_codes.countP
          (fun r => r.rid == otp_record.rid) = 0 := by
  have hmem : otp_record ∈ db.otp_codes := List.mem_of_find?_eq_some hfind
  have hzero : (removeFirst (fun r => r.rid == otp_record.rid)
      (updateFirst (fun r => r.rid == otp_record.rid)
        (fun r => { r with verified := true }) db.otp_codes)).countP
      (fun r => r.rid == otp_record.rid) = 0 := by
    have hpres : ∀ r : OTPRecord,
        ((fun r => r.rid == otp_record.rid) ({ r with verified := true } : OTPRecord))
          = (fun r => r.rid == otp_record.rid) r := fun r => rfl
    have hkeep := countP_updateFirst (fun r => r.rid == otp_record.rid)
      (fun r => r.rid == otp_record.rid) (fun r => { r with verified := true })
      hpres db.otp_codes
    have hex : ∃ x ∈ updateFirst (fun r => r.rid == otp_record.rid)
        (fun r => { r with verified := true }) db.otp_codes,
        (x.rid == otp_record.rid) = true := by
      rcases mem_or_updated_mem_updateFirst (fun r => r.rid == otp_record.rid)
          (fun r => { r with verified := true }) db.otp_codes otp_record hmem with h | h
      · exact ⟨otp_record, h, beq_self_eq_true _⟩
      · exact ⟨{ otp_record with verified := true }, h, beq_self_eq_true _⟩
    have hrem := countP_removeFirst_of_mem (fun r => r.rid == otp_record.rid) _ hex
    have hpos : 0 < db.otp_codes.countP (fun r => r.rid == otp_record.rid) :=
      List.countP_pos_iff.mpr ⟨otp_record, hmem, beq_self_eq_true _⟩
    omega
  simp only [verify_otp, hfind]
  rw [if_neg (by omega), if_neg (by omega), if_neg (not_not_intro hotp)]
  simp only [create_user, update_last_login, log_activity]
  cases hu : db.users.find? (fun u => u.email == email) with
  | some u =>
    dsimp only
    have huem : u.email = email := by
      have := List.find?_some hu
      simpa using this
    have humem : u ∈ db.users := List.mem_of_find?_eq_some hu
    refine ⟨_, rfl, rfl, ?_, ?_, ?_, ?_, rfl, ?_, ?_⟩
    · exact huem
    · intro h
      simp at h
    · intro u1 h1
      rw [Option.some.injEq] at h1
      rw [h1]
    · obtain ⟨x, hpx, hmemx⟩ := exists_updated_mem_updateFirst
        (fun t : User => t.user_id == u.user_id)
        (fun t => { t with last_login := some now }) db.users
        ⟨u, humem, beq_self_eq_true _⟩
      exact ⟨_, hmemx, by simpa using hpx, rfl⟩
    · rw [List.getLast?_concat]
    · exact hzero
  | none =>
    dsimp only
    refine ⟨_, rfl, rfl, rfl, ?_, ?_, ?_, rfl, ?_, ?_⟩
    · intro _
      refine ⟨rfl, ?_⟩
      have hmemNew : ({ user_id := newUserId, email := email, created_at := now, updated_at := now } : User) ∈ db.users ++ [{ user_id := newUserId, email := email, created_at := now, updated_at := now }] :=
        List.mem_append_right _ (by simp)
      rcases mem_or_updated_mem_updateFirst (fun t : User => t.user_id == newUserId)
          (fun t => { t with last_login := some now }) _ _ hmemNew with h | h
      · exact ⟨_, h, rfl, rfl⟩
      · exact ⟨_, h, rfl, rfl⟩
    · intro u1 h1
      simp at h1
    · obtain ⟨x, hpx, hmemx⟩ := exists_updated_mem_updateFirst
        (fun t : User => t.user_id == newUserId)
        (fun t => { t with last_login := some now })
        (db.users ++ [{ user_id := newUserId, email := email, created_at := now, updated_at := now }])
        ⟨({ user_id := newUserId, email := email, created_at := now, updated_at := now } : User),
          List.mem_append_right _ (by simp), beq_self_eq_true _⟩
      exact ⟨_, hmemx, by simpa using hpx, rfl⟩
    · rw [List.getLast?_concat]
    · exact hzero

/-- C1, witness: the amended theorem applied to the sample store at
instant 10 with the correct code. -/
theorem verify_success_effects_witness :
    (10 ≤ (sampleOTP 0).expires_at ∧ (sampleOTP 0).attempts < 5 ∧
      (sampleOTP 0).otp = "123456") ∧
    (∃ resp, (verify_otp (sampleDB 0) "sec" 10 "u1" "a@x.com" "123456").1 = some resp ∧
      resp.email = "a@x.com" ∧
      ∃ u ∈ (verify_otp (sampleDB 0) "sec" 10 "u1" "a@x.com" "123456").2.users,
        u.user_id = resp.user_id ∧ u.last_login = some 10) := by
  have h := verify_success_effects (sampleDB 0) "sec" 10 "u1" "a@x.com" "123456" (sampleOTP 0)
    rfl (by decide) (by decide) rfl (by decide)
  obtain ⟨resp, h1, h2, h3, h4, h5, h6, h7, h8, h9⟩ := h
  exact ⟨⟨by decide, by decide, rfl⟩, ⟨resp, h1, h3, h6⟩⟩

/-! ### C2 -/

/-- C2: issuing a challenge leaves exactly one challenge record for the
address (the fresh one), so after a second issuance the first code — when
it differs from the new one, as two independently generated codes are
presumed to — no longer verifies: `verify_otp` with the first code
returns `none`. -/
theorem challenge_supersession (db : DB) (email c1 c2 secret newUserId : String)
    (r1 r2 n1 n2 n3 : Nat) (d1 d2 : Bool) (hcode : c1 ≠ c2) :
    (((send_otp (send_otp db n1 c1 r1 d1 email).2 n2 c2 r2 d2 email).2.otp_codes.filter
        (fun r => r.email == email)).length = 1) ∧
    ((verify_otp (send_otp (send_otp db n1 c1 r1 d1 email).2 n2 c2 r2 d2 email).2
        secret n3 newUserId email c1).1 = none) := by
  set rec2 : OTPRecord :=
    { rid := r2, email := email, otp := c2, created_at := n2,
      expires_at := n2 + 600, attempts := 0, verified := false } with hrec2
  have hcodes : (send_otp (send_otp db n1 c1 r1 d1 email).2 n2 c2 r2 d2 email).2.otp_codes
      = db.otp_codes.filter (fun r => !(r.email == email)) ++ [rec2] := by
    rw [send_otp_otp_codes, send_otp_otp_codes]
    rw [List.filter_append, List.filter_filter]
    simp
  have hpref : ∀ x ∈ db.otp_codes.filter (fun r => !(r.email == email)),
      ¬ (x.email == email && !x.verified) = true := by
    intro x hx
    have := List.of_mem_filter hx
    simp only [Bool.not_eq_true'] at this
    simp [this]
  have hfind : (send_otp (send_otp db n1 c1 r1 d1 email).2 n2 c2 r2 d2 email).2.otp_codes.find?
      (fun r => r.email == email && !r.verified) = some rec2 := by
    rw [hcodes, find?_append_of_forall_neg _ _ _ hpref]
    simp [hrec2]
  constructor
  · rw [hcodes, List.filter_append, List.filter_filter]
    simp [hrec2]
  · simp only [verify_otp, hfind]
    by_cases hn : n3 > rec2.expires_at
    · rw [if_pos hn]
    · rw [if_neg hn, if_neg (by simp [hrec2]), if_pos (by simp [hrec2, Ne.symm hcode])]

/-- C2, witness: two issuances for the same address with distinct concrete
codes; the first code no longer verifies. -/
theorem challenge_supersession_witness :
    ("111111" : String) ≠ "222222" ∧
    ((((send_otp (send_otp ({} : DB) 0 "111111" 1 true "a@x.com").2 5 "222222" 2 true
          "a@x.com").2.otp_codes.filter (fun r => r.email == "a@x.com")).length = 1) ∧
      ((verify_otp (send_otp (send_otp ({} : DB) 0 "111111" 1 true "a@x.com").2 5 "222222" 2 true
          "a@x.com").2 "sec" 10 "u1" "a@x.com" "111111").1 = none)) :=
  ⟨by decide,
   challenge_supersession {} "a@x.com" "111111" "222222" "sec" "u1" 1 2 0 5 10 true true
     (by decide)⟩

/-! ### C3 -/

/-- C3: on a challenge store holding one pending challenge, every mismatched
verification attempt with the counter below 5 fails and raises the
counter by exactly one, so 5 mismatches drive it from 0 to 5; the next
(6th) call — submitting the correct stored code — fails as well and
deletes the challenge record. -/
theorem otp_attempt_limit (secret newUserId email wrong : String)
    (otp_record : OTPRecord) (us : List User) (ss : List Session)
    (acts : List UserActivity)
    (hemail : otp_record.email = email) (hver : otp_record.verified = false)
    (hwrong : wrong ≠ otp_record.otp) :
    (∀ a n, a < 5 → n ≤ otp_record.expires_at →
      verify_otp ⟨[{ otp_record with attempts := a }], us, ss, acts⟩
          secret n newUserId email wrong
        = (none, ⟨[{ otp_record with attempts := a + 1 }], us, ss, acts⟩)) ∧
    (∀ n,
      verify_otp ⟨[{ otp_record with attempts := 5 }], us, ss, acts⟩
          secret n newUserId email otp_record.otp
        = (none, ⟨[], us, ss, acts⟩)) := by
  constructor
  · intro a n ha hn
    have hfind : ([{ otp_record with attempts := a }] : List OTPRecord).find?
        (fun r => r.email == email && !r.verified) = some { otp_record with attempts := a } := by
      apply List.find?_cons_of_pos
      simp [hemail, hver]
    simp only [verify_otp, hfind]
    rw [if_neg (by simp; omega), if_neg (by simp; omega),
      if_pos (by simpa using Ne.symm hwrong)]
    simp [updateFirst]
  · intro n
    have hfind : ([{ otp_record with attempts := 5 }] : List OTPRecord).find?
        (fun r => r.email == email && !r.verified) = some { otp_record with attempts := 5 } := by
      apply List.find?_cons_of_pos
      simp [hemail, hver]
    simp only [verify_otp, hfind]
    by_cases hn : n > otp_record.expires_at
    · rw [if_pos (by simpa using hn)]
      simp [removeFirst]
    · rw [if_neg (by simpa using hn), if_pos (by simp)]
      simp [removeFirst]

/-- C3, witness: the sample challenge at counters 0 and 5: one mismatched
attempt bumps 0 to 1; at counter 5 even the stored code fails and the
record is deleted. -/
theorem otp_attempt_limit_witness :
    (("000000" : String) ≠ "123456") ∧
    (verify_otp ⟨[sampleOTP 0], [], [], []⟩ "sec" 10 "u1" "a@x.com" "000000"
        = (none, ⟨[sampleOTP 1], [], [], []⟩)) ∧
    (verify_otp ⟨[sampleOTP 5], [], [], []⟩ "sec" 20 "u1" "a@x.com" "123456"
        = (none, ⟨[], [], [], []⟩)) := by
  have h := otp_attempt_limit "sec" "u1" "a@x.com" "000000" (sampleOTP 0) [] [] []
    rfl rfl (by decide)
  exact ⟨by decide, h.1 0 10 (by decide) (by decide), h.2 20⟩

/-! ### C4 -/

/-- C4: when the found challenge has expired (`expires_at < now`),
`verify_otp` fails — for any submitted code, the stored one included —
and the challenge record is deleted in that same call; no other
collection changes. -/
theorem verify_expired_fails (db : DB) (secret : String) (now : Nat)
    (newUserId email otp : String) (otp_record : OTPRecord)
    (hfind : db.otp_codes.find? (fun r => r.email == email && !r.verified)
        = some otp_record)
    (hexp : otp_record.expires_at < now)
    (hcount : db.otp_codes.countP (fun r => r.rid == otp_record.rid) ≤ 1) :
    (verify_otp db secret now newUserId email otp).1 = none ∧
    (verify_otp db secret now newUserId email otp).2.otp_codes.countP
        (fun r => r.rid == otp_record.rid) = 0 ∧
    (verify_otp db secret now newUserId email otp).2.users = db.users ∧
    (verify_otp db secret now newUserId email otp).2.sessions = db.sessions ∧
    (verify_otp db secret now newUserId email otp).2.activities = db.activities := by
  have hmem : otp_record ∈ db.otp_codes := List.mem_of_find?_eq_some hfind
  have hone : 0 < db.otp_codes.countP (fun r => r.rid == otp_record.rid) :=
    List.countP_pos_iff.mpr ⟨otp_record, hmem, beq_self_eq_true _⟩
  have hrem := countP_removeFirst_of_mem (fun r => r.rid == otp_record.rid)
    db.otp_codes ⟨otp_record, hmem, beq_self_eq_true _⟩
  have hV : verify_otp db secret now newUserId email otp
      = (none, { db with otp_codes := removeFirst (fun r => r.rid == otp_record.rid) db.otp_codes }) := by
    simp only [verify_otp, hfind]
    rw [if_pos (show now > otp_record.expires_at from hexp)]
  rw [hV]
  refine ⟨rfl, ?_, rfl, rfl, rfl⟩
  show (removeFirst (fun r => r.rid == otp_record.rid) db.otp_codes).countP
      (fun r => r.rid == otp_record.rid) = 0
  omega

/-- C4, witness: the sample challenge verified at instant 700 (past its
expiry 600) with the correct stored code still fails, and the record is
gone. -/
theorem verify_expired_fails_witness :
    ((sampleDB 0).otp_codes.find? (fun r => r.email == "a@x.com" && !r.verified)
        = some (sampleOTP 0)) ∧
    ((sampleOTP 0).expires_at < 700) ∧
    ((verify_otp (sampleDB 0) "sec" 700 "u1" "a@x.com" "123456").1 = none ∧
      (verify_otp (sampleDB 0) "sec" 700 "u1" "a@x.com" "123456").2.otp_codes.countP
          (fun r => r.rid == (sampleOTP 0).rid) = 0) :=
  ⟨rfl, by decide,
   let h := verify_expired_fails (sampleDB 0) "sec" 700 "u1" "a@x.com" "123456"
     (sampleOTP 0) rfl (by decide) (by decide)
   ⟨h.1, h.2.1⟩⟩

/-! ### C5 -/

/-- C5: minting a token and verifying it before the embedded expiry
returns a payload carrying the minted identity id and contact; at or
after the embedded expiry, verification rejects the token. -/
theorem token_roundtrip (secret user_id email : String) (now now2 : Nat) :
    (now2 < (generate_token secret now user_id email).exp →
      ∃ p, verify_token secret now2 (generate_token secret now user_id email) = some p ∧
        p.user_id = user_id ∧ p.email = email) ∧
    ((generate_token secret now user_id email).exp ≤ now2 →
      verify_token secret now2 (generate_token secret now user_id email) = none) := by
  constructor
  · intro h
    refine ⟨generate_token secret now user_id email, ?_, rfl, rfl⟩
    have h' : now2 < now + 30 * 86400 := by simpa [generate_token] using h
    simp [verify_token, generate_token, h']
  · intro h
    have h' : ¬ now2 < now + 30 * 86400 := by
      have := h; simp only [generate_token] at this; omega
    simp [verify_token, generate_token, h']

/-- C5, witness: a concrete token verified within its window and at its
30-day expiry boundary. -/
theorem token_roundtrip_witness :
    (100 < (generate_token "sec" 0 "u1" "a@x.com").exp ∧
      ∃ p, verify_token "sec" 100 (generate_token "sec" 0 "u1" "a@x.com") = some p ∧
        p.user_id = "u1" ∧ p.email = "a@x.com") ∧
    ((generate_token "sec" 0 "u1" "a@x.com").exp ≤ 2592000 ∧
      verify_token "sec" 2592000 (generate_token "sec" 0 "u1" "a@x.com") = none) :=
  ⟨⟨by decide, (token_roundtrip "sec" "u1" "a@x.com" 0 100).1 (by decide)⟩,
   ⟨by decide, (token_roundtrip "sec" "u1" "a@x.com" 0 2592000).2 (by decide)⟩⟩

/-! ### C6 -/

/-- C6, counterexample: a code-mismatch failure (the counter visibly rises
from 0 to 1) and an attempts-exhausted failure (counter 5, correct code,
record deleted) both leave the activity log empty — no login-failure
record is appended, contradicting the claim that one is. -/
theorem verify_failure_appends_no_record :
    ((verify_otp (sampleDB 0) "sec" 10 "u1" "a@x.com" "000000").1 = none ∧
      (verify_otp (sampleDB 0) "sec" 10 "u1" "a@x.com" "000000").2.otp_codes
        = [sampleOTP 1] ∧
      (verify_otp (sampleDB 0) "sec" 10 "u1" "a@x.com" "000000").2.activities = []) ∧
    ((verify_otp (sampleDB 5) "sec" 10 "u1" "a@x.com" "123456").1 = none ∧
      (verify_otp (sampleDB 5) "sec" 10 "u1" "a@x.com" "123456").2.otp_codes = [] ∧
      (verify_otp (sampleDB 5) "sec" 10 "u1" "a@x.com" "123456").2.activities = []) :=
  ⟨⟨rfl, rfl, rfl⟩, ⟨rfl, rfl, rfl⟩⟩

/-- C6, amended: no failing `verify_otp` call appends any activity record —
not for code mismatch or exhausted attempts any more than for a missing
or expired challenge; the activity log is returned unchanged whenever the
call fails. -/
theorem verify_failure_logs_nothing (db : DB) (secret : String) (now : Nat)
    (newUserId email otp : String)
    (hfail : (verify_otp db secret now newUserId email otp).1 = none) :
    (verify_otp db secret now newUserId email otp).2.activities = db.activities := by
  cases hf : db.otp_codes.find? (fun r => r.email == email && !r.verified) with
  | none => simp [verify_otp, hf]
  | some otp_record =>
    by_cases h1 : now > otp_record.expires_at
    · simp [verify_otp, hf, h1]
    · by_cases h2 : otp_record.attempts ≥ 5
      · simp [verify_otp, hf, h1, h2]
      · by_cases h3 : otp_record.otp ≠ otp
        · simp [verify_otp, hf, h1, h2, h3]
        · exfalso
          simp [verify_otp, hf, h1, h2, h3] at hfail

/-- C6, witness for the amended theorem: a concrete mismatched attempt
leaves the activity log exactly as it was. -/
theorem verify_failure_logs_nothing_witness :
    ((verify_otp (sampleDB 0) "sec" 10 "u1" "a@x.com" "000000").1 = none) ∧
    ((verify_otp (sampleDB 0) "sec" 10 "u1" "a@x.com" "000000").2.activities
        = (sampleDB 0).activities) :=
  ⟨rfl, verify_failure_logs_nothing (sampleDB 0) "sec" 10 "u1" "a@x.com" "000000" rfl⟩

/-! ### C7 -/

/-- C7, counterexample: invalidating the sample session succeeds, but a
second call on the very same (existing) session id raises 404, not
success — contradicting the claimed idempotent-success semantics. -/
theorem invalidate_session_second_call_404 :
    ((invalidate_session_route sessionDB "s1").1
        = ApiResult.ok "Session invalidated successfully") ∧
    ((invalidate_session_route (invalidate_session_route sessionDB "s1").2 "s1").1
        = ApiResult.error 404 "Session not found") := ⟨rfl, rfl⟩

/-- C7, amended: the route sets the active flag to false and fails with 404
when no session with that id exists; it is not idempotent-safe: because
the service reports `modified_count > 0`, a second call on the same
existing — now inactive — session id also fails with 404 and changes
nothing. -/
theorem invalidate_session_route_spec (db : DB) (sid : String) :
    (db.sessions.find? (fun s => s.session_id == sid) = none →
      invalidate_session_route db sid = (ApiResult.error 404 "Session not found", db)) ∧
    (∀ s, db.sessions.find? (fun s => s.session_id == sid) = some s → s.is_active = true →
      (invalidate_session_route db sid).1 = ApiResult.ok "Session invalidated successfully" ∧
      (invalidate_session_route db sid).2.sessions.find? (fun s => s.session_id == sid)
          = some { s with is_active := false } ∧
      (invalidate_session_route db sid).2.users = db.users ∧
      (invalidate_session_route db sid).2.otp_codes = db.otp_codes ∧
      (invalidate_session_route db sid).2.activities = db.activities) ∧
    (∀ s, db.sessions.find? (fun s => s.session_id == sid) = some s → s.is_active = false →
      invalidate_session_route db sid = (ApiResult.error 404 "Session not found", db)) := by
  refine ⟨?_, ?_, ?_⟩
  · intro hnone
    have hupd : updateFirst (fun s => s.session_id == sid)
        (fun s => { s with is_active := false }) db.sessions = db.sessions :=
      updateFirst_of_forall_neg _ _ _ (List.find?_eq_none.mp hnone)
    simp [invalidate_session_route, invalidate_session, hnone, hupd]
  · intro s hs hact
    have hfind : (updateFirst (fun s => s.session_id == sid)
        (fun s => { s with is_active := false }) db.sessions).find?
          (fun s => s.session_id == sid)
        = some { s with is_active := false } := by
      rw [find?_updateFirst (fun t : Session => t.session_id == sid)
        (fun t => { t with is_active := false }) (fun a => rfl), hs]
      rfl
    refine ⟨?_, ?_, ?_, ?_, ?_⟩ <;>
      simp [invalidate_session_route, invalidate_session, hs, hact, hfind]
  · intro s hs hact
    have hfix : ({ s with is_active := false } : Session) = s := by
      cases s
      simp_all
    have hupd : updateFirst (fun s => s.session_id == sid)
        (fun s => { s with is_active := false }) db.sessions = db.sessions :=
      updateFirst_eq_of_fix _ _ db.sessions s hs hfix
    simp [invalidate_session_route, invalidate_session, hs, hact, hupd]

/-- C7, witness for the amended theorem: the concrete active sample session
invalidates with success; an unknown id yields 404 and no state change. -/
theorem invalidate_session_route_spec_witness :
    (sessionDB.sessions.find? (fun s => s.session_id == "s1") = some sampleSession ∧
      sampleSession.is_active = true ∧
      (invalidate_session_route sessionDB "s1").1
        = ApiResult.ok "Session invalidated successfully") ∧
    (sessionDB.sessions.find? (fun s => s.session_id == "zz") = none ∧
      invalidate_session_route sessionDB "zz"
        = (ApiResult.error 404 "Session not found", sessionDB)) :=
  ⟨⟨rfl, rfl,
    ((invalidate_session_route_spec sessionDB "s1").2.1 sampleSession rfl rfl).1⟩,
   ⟨rfl, (invalidate_session_route_spec sessionDB "zz").1 rfl⟩⟩

/-! ### C8 -/

/-- C8: `send_otp` returns success and the fresh challenge record is
persisted whatever the notifier outcome; the whole result is independent
of the delivery flag, so a delivery failure neither fails the call nor
rolls back the persisted challenge. -/
theorem send_otp_delivery_independent (db : DB) (now : Nat) (otp : String)
    (newRid : Nat) (delivered : Bool) (email : String) :
    (send_otp db now otp newRid delivered email).1 = true ∧
    send_otp db now otp newRid delivered email = send_otp db now otp newRid true email ∧
    ({ rid := newRid, email := email, otp := otp, created_at := now,
       expires_at := now + 600, attempts := 0, verified := false } : OTPRecord)
        ∈ (send_otp db now otp newRid delivered email).2.otp_codes := by
  refine ⟨?_, rfl, ?_⟩
  · unfold send_otp
    cases h : db.users.find? (fun u => u.email == email) <;> simp [h]
  · rw [send_otp_otp_codes]
    exact List.mem_append_right _ (by simp)

/-! ### C9 -/

/-- C9: both cleanup sweeps delete exactly the records whose `expires_at`
lies strictly before `now` (every other record survives, in order, and
nothing else in the store changes), return exactly the number of records
removed, and a second run at the same instant removes nothing. -/
theorem cleanup_sweeps_exact (db : DB) (now : Nat) :
    ((cleanup_expired_sessions db now).2.sessions
        = db.sessions.filter (fun s => !(s.expires_at < now))) ∧
    (∀ s ∈ db.sessions, ¬ s.expires_at < now →
      s ∈ (cleanup_expired_sessions db now).2.sessions) ∧
    (∀ s ∈ (cleanup_expired_sessions db now).2.sessions, ¬ s.expires_at < now) ∧
    ((cleanup_expired_sessions db now).1
        = db.sessions.countP (fun s => s.expires_at < now)) ∧
    ((cleanup_expired_sessions (cleanup_expired_sessions db now).2 now).1 = 0) ∧
    ((cleanup_expired_sessions db now).2.otp_codes = db.otp_codes) ∧
    ((cleanup_expired_sessions db now).2.users = db.users) ∧
    ((cleanup_expired_sessions db now).2.activities = db.activities) ∧
    ((cleanup_expired_otps db now).2.otp_codes
        = db.otp_codes.filter (fun r => !(r.expires_at < now))) ∧
    (∀ r ∈ db.otp_codes, ¬ r.expires_at < now →
      r ∈ (cleanup_expired_otps db now).2.otp_codes) ∧
    (∀ r ∈ (cleanup_expired_otps db now).2.otp_codes, ¬ r.expires_at < now) ∧
    ((cleanup_expired_otps db now).1
        = db.otp_codes.countP (fun r => r.expires_at < now)) ∧
    ((cleanup_expired_otps (cleanup_expired_otps db now).2 now).1 = 0) ∧
    ((cleanup_expired_otps db now).2.sessions = db.sessions) ∧
    ((cleanup_expired_otps db now).2.users = db.users) ∧
    ((cleanup_expired_otps db now).2.activities = db.activities) := by
  refine ⟨rfl, ?_, ?_, ?_, ?_, rfl, rfl, rfl, rfl, ?_, ?_, ?_, ?_, rfl, rfl, rfl⟩
  · intro s hs h
    exact List.mem_filter.mpr ⟨hs, by simp [h]⟩
  · intro s hs
    have := List.of_mem_filter hs
    simpa using this
  · simp [cleanup_expired_sessions, List.countP_eq_length_filter]
  · simp [cleanup_expired_sessions, List.filter_filter]
  · intro r hr h
    exact List.mem_filter.mpr ⟨hr, by simp [h]⟩
  · intro r hr
    have := List.of_mem_filter hr
    simpa using this
  · simp [cleanup_expired_otps, List.countP_eq_length_filter]
  · simp [cleanup_expired_otps, List.filter_filter]

/-- C9, witness: the mixed-expiry sample store swept at instant 200: one
session and one challenge removed, the live ones kept, and a second sweep
removes nothing. -/
theorem cleanup_sweeps_exact_witness :
    (cleanup_expired_sessions sweepDB 200).1 = 1 ∧
    (cleanup_expired_sessions sweepDB 200).2.sessions
      = [{ sampleSession with session_id := "s2", expires_at := 600 }] ∧
    (cleanup_expired_sessions (cleanup_expired_sessions sweepDB 200).2 200).1 = 0 ∧
    (cleanup_expired_otps sweepDB 200).1 = 1 ∧
    (cleanup_expired_otps (cleanup_expired_otps sweepDB 200).2 200).1 = 0 ∧
    (∀ s ∈ (cleanup_expired_sessions sweepDB 200).2.sessions, ¬ s.expires_at < 200) := by
  refine ⟨rfl, rfl, (cleanup_sweeps_exact (cleanup_expired_sessions sweepDB 200).2 200).2.2.2.2.1, rfl,
    (cleanup_sweeps_exact (cleanup_expired_otps sweepDB 200).2 200).2.2.2.2.2.2.2.2.2.2.2.2.1,
    (cleanup_sweeps_exact sweepDB 200).2.2.1⟩

/-! ### C10 -/

/-- C10: the logout route answers with the success message on every input;
with a missing header, a non-bearer header or a token that does not
verify it changes no state, and with a verifying token the only change is
one appended logout activity record. -/
theorem logout_always_succeeds (db : DB) (secret : String) (now : Nat) (h : AuthHeader) :
    (logout db secret now h).1 = "Logged out successfully" ∧
    (h = AuthHeader.missing → (logout db secret now h).2 = db) ∧
    (∀ raw, h = AuthHeader.notBearer raw → (logout db secret now h).2 = db) ∧
    (∀ t, h = AuthHeader.bearer t → verify_token secret now t = none →
      (logout db secret now h).2 = db) ∧
    (∀ t p, h = AuthHeader.bearer t → verify_token secret now t = some p →
      (logout db secret now h).2.activities
          = db.activities
              ++ [{ user_id := p.user_id, activity_type := "logout", timestamp := now }] ∧
      (logout db secret now h).2.users = db.users ∧
      (logout db secret now h).2.sessions = db.sessions ∧
      (logout db secret now h).2.otp_codes = db.otp_codes) := by
  cases h with
  | missing => exact ⟨rfl, fun _ => rfl, by simp, by simp, by simp⟩
  | notBearer raw => exact ⟨rfl, by simp, fun _ _ => rfl, by simp, by simp⟩
  | bearer t =>
    cases hv : verify_token secret now t with
    | none =>
      refine ⟨by simp [logout, hv], by simp, by simp, fun t' ht' _ => ?_, fun t' p ht' hp => ?_⟩
      · cases ht'; simp [logout, hv]
      · cases ht'; rw [hv] at hp; cases hp
    | some payload =>
      refine ⟨by simp [logout, hv], by simp, by simp, fun t' ht' hnone => ?_, fun t' p ht' hp => ?_⟩
      · cases ht'; rw [hv] at hnone; cases hnone
      · cases ht'
        rw [hv] at hp
        cases hp
        exact ⟨by simp [logout, hv, log_activity], by simp [logout, hv, log_activity],
          by simp [logout, hv, log_activity], by simp [logout, hv, log_activity]⟩

/-- C10, witness: logging out with no header leaves the sample store
untouched yet succeeds; with a valid bearer token the logout activity is
appended. -/
theorem logout_always_succeeds_witness :
    ((logout sessionDB "sec" 10 AuthHeader.missing).1 = "Logged out successfully") ∧
    ((logout sessionDB "sec" 10 AuthHeader.missing).2 = sessionDB) ∧
    ((logout sessionDB "sec" 10 (AuthHeader.bearer (generate_token "sec" 0 "u1" "a@x.com"))).2.activities
        = [{ user_id := "u1", activity_type := "logout", timestamp := 10 }]) := by
  refine ⟨(logout_always_succeeds sessionDB "sec" 10 AuthHeader.missing).1,
    (logout_always_succeeds sessionDB "sec" 10 AuthHeader.missing).2.1 rfl, ?_⟩
  have := (logout_always_succeeds sessionDB "sec" 10
      (AuthHeader.bearer (generate_token "sec" 0 "u1" "a@x.com"))).2.2.2.2
      (generate_token "sec" 0 "u1" "a@x.com")
      { user_id := "u1", email := "a@x.com", iat := 0, exp := 2592000, sig := "sec" }
      rfl (by rfl)
  simpa [sessionDB] using this.1
